import Mathlib

/-!
Verification of the DxilSubobject registry (DxilSubobject.cpp) and of the
TypeTranslator shape classifiers / type lowering (TypeTranslator.h) from
the DirectXShaderCompiler sources.

Shallow embedding conventions:
* `llvm::StringRef` / `const char *` string pointers are modelled by `StrPtr`:
  either a caller-owned buffer (`ext`, identified by an arbitrary id) or a
  pointer to entry `idx` of the string store of the registry with id `reg`.
  Within one registry the string store is content-addressed, so an index
  models pointer identity of the stored `std::string`.
* `const void *` byte pointers are modelled by `BytePtr` the same way
  (`stored reg idx` points at entry `idx` of registry `reg`'s byte store).
* `m_StringStorage` (a map keyed by `StringRef`, hence by content) is a list
  of stored strings; `m_RawBytesStorage` (a map keyed by `const void *`,
  hence by pointer) is a list of stored byte vectors, addressed by index.
* `m_Subobjects` (`name -> unique_ptr<DxilSubobject>`) is an association
  list with at most one entry per key; `m_Subobjects[Name] = ptr` is an
  insert-or-overwrite.
* `DXASSERT` / `DXASSERT_NOMSG` are compiled out in release (NDEBUG) builds;
  operations that execute one return a `Bool` that is `true` exactly when
  every assertion condition held, while the state transition follows the
  code that executes after the assertion.  In `GetRawBytes` the assertion
  `size < UINT_MAX` is immediately followed by an explicit `if` with the
  same condition, so no separate flag is returned there.
* The C++ union of `DxilSubobject` is modelled as one structure holding all
  members; the code only ever reads the member selected by `m_Kind`, so the
  extra fields are never observable (fresh objects get fixed defaults where
  C++ leaves the union uninitialized).
-/

/-- DXIL::SubobjectKind: the closed set of subobject kinds. -/
inductive SubobjectKind where
  | StateObjectConfig
  | GlobalRootSignature
  | LocalRootSignature
  | SubobjectToExportsAssociation
  | RaytracingShaderConfig
  | RaytracingPipelineConfig
  | HitGroup
deriving DecidableEq, Repr

/-- A `const char *` string pointer: either a caller-owned buffer or a
pointer into the string store of the registry with id `reg`. -/
inductive StrPtr where
  | ext (id : Nat)
  | interned (reg : Nat) (idx : Nat)
deriving DecidableEq, Repr

/-- A `const void *` byte pointer: either a caller-owned buffer or a
pointer into the raw-bytes store of the registry with id `reg`. -/
inductive BytePtr where
  | ext (id : Nat)
  | stored (reg : Nat) (idx : Nat)
deriving DecidableEq, Repr

/-- DxilSubobject: kind, interned name, exports vector, and the union
members (flattened; only the member matching `m_Kind` is ever read). -/
structure Subobject where
  m_Kind : SubobjectKind
  m_Name : StrPtr
  m_Exports : List StrPtr
  StateObjectConfig_Flags : Nat
  RootSignature_Data : BytePtr
  RootSignature_Size : Nat
  SubobjectToExportsAssociation_Subobject : StrPtr
  RaytracingShaderConfig_MaxPayloadSizeInBytes : Nat
  RaytracingShaderConfig_MaxAttributeSizeInBytes : Nat
  RaytracingPipelineConfig_MaxTraceRecursionDepth : Nat
  HitGroup_Intersection : StrPtr
  HitGroup_AnyHit : StrPtr
  HitGroup_ClosestHit : StrPtr
deriving DecidableEq, Repr

/-- DxilSubobjects: a registry with identity `id` (modelling the object's
address, used by the clone constructor's owner comparison), the interned
string storage, the raw-bytes storage, and the name-keyed subobject map. -/
structure Registry where
  id : Nat
  strings : List String
  rawBytes : List (List Nat)
  subobjects : List (String × Subobject)
deriving DecidableEq, Repr

/-- A fresh, empty DxilSubobjects registry at address `i`. -/
def Registry.fresh (i : Nat) : Registry :=
  { id := i, strings := [], rawBytes := [], subobjects := [] }

/-- Index of the first occurrence of `v`, if any (content lookup in a
map keyed by string content). -/
def findIndex : List String → String → Option Nat
  | [], _ => none
  | s :: rest, v => if s = v then some 0 else (findIndex rest v).map (· + 1)

/-- Lookup in the name-keyed subobject map. -/
def mapFind : List (String × Subobject) → String → Option Subobject
  | [], _ => none
  | (k, v) :: rest, name => if k = name then some v else mapFind rest name

/-- `m_Subobjects[Name] = ptr`: insert-or-overwrite keyed by name. -/
def mapInsert : List (String × Subobject) → String → Subobject → List (String × Subobject)
  | [], name, v => [(name, v)]
  | (k, v') :: rest, name, v =>
      if k = name then (name, v) :: rest else (k, v') :: mapInsert rest name v

/-- `m_Subobjects.erase(it)`: remove the first entry with the given key. -/
def mapErase : List (String × Subobject) → String → List (String × Subobject)
  | [], _ => []
  | (k, v') :: rest, name =>
      if k = name then rest else (k, v') :: mapErase rest name

/-- DxilSubobjects::GetSubobjectString: content-addressed string interning.
If the content is already stored, return the stored instance; otherwise
store a copy and return it. -/
def GetSubobjectString (reg : Registry) (value : String) : StrPtr × Registry :=
  match findIndex reg.strings value with
  | some i => (StrPtr.interned reg.id i, reg)
  | none =>
      (StrPtr.interned reg.id reg.strings.length,
       { reg with strings := reg.strings ++ [value] })

/-- UINT_MAX (32-bit). -/
def UINT_MAX : Nat := 4294967295

/-- Whether `p` is a key of `reg`'s `m_RawBytesStorage`: the keys are
exactly the data pointers of the stored copies. -/
def isRawKey (reg : Registry) : BytePtr → Bool
  | BytePtr.ext _ => false
  | BytePtr.stored r i => r = reg.id && i < reg.rawBytes.length

/-- The byte content a pointer designates: external buffers are read from
the ambient memory `extM`; stored pointers read the registry's own store.
(A stored pointer of a different registry is outside this registry's and
the ambient model's reach; it resolves to the empty buffer, a case no
operation modelled here exercises.) -/
def readRawPtr (extM : Nat → List Nat) (reg : Registry) : BytePtr → List Nat
  | BytePtr.ext e => extM e
  | BytePtr.stored r i => if r = reg.id then reg.rawBytes.getD i [] else []

/-- DxilSubobjects::GetRawBytes: if `ptr` is already a key of the byte
store, return it unchanged; otherwise (size permitting) store a copy of the
first `size` bytes and return the copy's pointer.  Returns `none` for the
C++ `nullptr` result. -/
def GetRawBytes (extM : Nat → List Nat) (reg : Registry) (p : BytePtr)
    (size : Nat) : Option BytePtr × Registry :=
  if isRawKey reg p then (some p, reg)
  else if UINT_MAX ≤ size then (none, reg)
  else
    (some (BytePtr.stored reg.id reg.rawBytes.length),
     { reg with rawBytes := reg.rawBytes ++ [(readRawPtr extM reg p).take size] })

/-- DxilSubobjects::FindSubobject: name lookup, no ownership transfer. -/
def FindSubobject (reg : Registry) (name : String) : Option Subobject :=
  mapFind reg.subobjects name

/-- DxilSubobjects::RemoveSubobject: erase the named entry if present
(find-then-erase equals erasing the first matching entry). -/
def RemoveSubobject (reg : Registry) (name : String) : Registry :=
  { reg with subobjects := mapErase reg.subobjects name }

/-- Union-member defaults standing in for C++'s uninitialized union in a
freshly constructed DxilSubobject; never read through a kind-respecting
access. -/
def blankSubobject (kind : SubobjectKind) (name : StrPtr) : Subobject :=
  { m_Kind := kind
    m_Name := name
    m_Exports := []
    StateObjectConfig_Flags := 0
    RootSignature_Data := BytePtr.ext 0
    RootSignature_Size := 0
    SubobjectToExportsAssociation_Subobject := StrPtr.ext 0
    RaytracingShaderConfig_MaxPayloadSizeInBytes := 0
    RaytracingShaderConfig_MaxAttributeSizeInBytes := 0
    RaytracingPipelineConfig_MaxTraceRecursionDepth := 0
    HitGroup_Intersection := StrPtr.ext 0
    HitGroup_AnyHit := StrPtr.ext 0
    HitGroup_ClosestHit := StrPtr.ext 0 }

/-- DxilSubobject::CopyUnionedContents: copy the union member selected by
the (already set) kind of `s` from `other`. -/
def CopyUnionedContents (s other : Subobject) : Subobject :=
  match s.m_Kind with
  | SubobjectKind.StateObjectConfig =>
      { s with StateObjectConfig_Flags := other.StateObjectConfig_Flags }
  | SubobjectKind.GlobalRootSignature =>
      { s with RootSignature_Size := other.RootSignature_Size
               RootSignature_Data := other.RootSignature_Data }
  | SubobjectKind.LocalRootSignature =>
      { s with RootSignature_Size := other.RootSignature_Size
               RootSignature_Data := other.RootSignature_Data }
  | SubobjectKind.SubobjectToExportsAssociation =>
      { s with SubobjectToExportsAssociation_Subobject :=
                 other.SubobjectToExportsAssociation_Subobject }
  | SubobjectKind.RaytracingShaderConfig =>
      { s with RaytracingShaderConfig_MaxPayloadSizeInBytes :=
                 other.RaytracingShaderConfig_MaxPayloadSizeInBytes
               RaytracingShaderConfig_MaxAttributeSizeInBytes :=
                 other.RaytracingShaderConfig_MaxAttributeSizeInBytes }
  | SubobjectKind.RaytracingPipelineConfig =>
      { s with RaytracingPipelineConfig_MaxTraceRecursionDepth :=
                 other.RaytracingPipelineConfig_MaxTraceRecursionDepth }
  | SubobjectKind.HitGroup =>
      { s with HitGroup_Intersection := other.HitGroup_Intersection
               HitGroup_AnyHit := other.HitGroup_AnyHit
               HitGroup_ClosestHit := other.HitGroup_ClosestHit }

/-- The string content a pointer designates, with `src` the registry owning
the cloned-from object and `dest` the cloning registry; external buffers
are read from the ambient memory `extS`. -/
def readStrPtr (extS : Nat → String) (src dest : Registry) : StrPtr → String
  | StrPtr.ext e => extS e
  | StrPtr.interned r i =>
      if r = dest.id then dest.strings.getD i ""
      else if r = src.id then src.strings.getD i "" else ""

/-- Intern a list of export string pointers into `dest`, in order
(the loop over `m_Exports` in DxilSubobject::InternStrings). -/
def internExports (extS : Nat → String) (src : Registry) :
    Registry → List StrPtr → List StrPtr × Registry
  | dest, [] => ([], dest)
  | dest, p :: rest =>
      let r1 := GetSubobjectString dest (readStrPtr extS src dest p)
      let r2 := internExports extS src r1.2 rest
      (r1.1 :: r2.1, r2.2)

/-- DxilSubobject::InternStrings: re-resolve the name, and the per-kind
string members (association target and exports; hit-group shader names),
through the owner's (destination's) string store.  The root-signature blob
is not touched. -/
def InternStrings (extS : Nat → String) (src dest : Registry) (s : Subobject) :
    Subobject × Registry :=
  let rn := GetSubobjectString dest (readStrPtr extS src dest s.m_Name)
  let s1 := { s with m_Name := rn.1 }
  match s1.m_Kind with
  | SubobjectKind.SubobjectToExportsAssociation =>
      let rs :=
        GetSubobjectString rn.2
          (readStrPtr extS src rn.2 s1.SubobjectToExportsAssociation_Subobject)
      let re := internExports extS src rs.2 s1.m_Exports
      ({ s1 with SubobjectToExportsAssociation_Subobject := rs.1
                 m_Exports := re.1 }, re.2)
  | SubobjectKind.HitGroup =>
      let ri := GetSubobjectString rn.2 (readStrPtr extS src rn.2 s1.HitGroup_Intersection)
      let ra := GetSubobjectString ri.2 (readStrPtr extS src ri.2 s1.HitGroup_AnyHit)
      let rc := GetSubobjectString ra.2 (readStrPtr extS src ra.2 s1.HitGroup_ClosestHit)
      ({ s1 with HitGroup_Intersection := ri.1
                 HitGroup_AnyHit := ra.1
                 HitGroup_ClosestHit := rc.1 }, rc.2)
  | _ => (s1, rn.2)

/-- DxilSubobjects::CreateSubobject: intern the name, assert that it is not
already taken (`DXASSERT(FindSubobject(Name) == nullptr, ...)` — the
returned `Bool`), construct the subobject (whose constructor interns the
name again, a no-op), and insert it under the name.  The insertion runs
whether or not the assertion held. -/
def CreateSubobject (reg : Registry) (kind : SubobjectKind) (Name : String) :
    Subobject × Registry × Bool :=
  let reg1 := (GetSubobjectString reg Name).2
  let ok := (FindSubobject reg1 Name).isNone
  let r2 := GetSubobjectString reg1 Name
  let obj := blankSubobject kind r2.1
  (obj, { r2.2 with subobjects := mapInsert (r2.2).subobjects Name obj }, ok)

/-- Replace the union payload of the just-created subobject both in the
returned reference and in the map entry (the C++ factories mutate the
object in the map through the reference CreateSubobject returned). -/
def setPayload (reg : Registry) (Name : String) (obj : Subobject) : Registry :=
  { reg with subobjects := mapInsert reg.subobjects Name obj }

/-- DXIL::StateObjectFlags::ValidMask.  Modelled from the spec: the
constant lives in DxilConstants.h, outside the provided sources; the spec's
scenario fixes the valid mask as 0x3. -/
def StateObjectFlags_ValidMask : Nat := 3

/-- `(~(uint32_t)DXIL::StateObjectFlags::ValidMask) & Flags`. -/
def invalidFlagBits (Flags : Nat) : Nat :=
  Nat.land (UINT_MAX - StateObjectFlags_ValidMask) Flags

/-- DxilSubobjects::CreateStateObjectConfig.  The flags check is
`DXASSERT_NOMSG(0 == (~ValidMask & Flags))`; the flags are stored
verbatim afterwards. -/
def CreateStateObjectConfig (reg : Registry) (Name : String) (Flags : Nat) :
    Subobject × Registry × Bool :=
  let okFlags : Bool := invalidFlagBits Flags = 0
  let r := CreateSubobject reg SubobjectKind.StateObjectConfig Name
  let obj1 := { r.1 with StateObjectConfig_Flags := Flags }
  (obj1, setPayload r.2.1 Name obj1, okFlags && r.2.2)

/-- DxilSubobjects::CreateRootSignature: the caller's blob pointer and size
are stored verbatim (no call into GetRawBytes). -/
def CreateRootSignature (reg : Registry) (Name : String) (isLocal : Bool)
    (Data : BytePtr) (Size : Nat) : Subobject × Registry × Bool :=
  let kind := if isLocal then SubobjectKind.LocalRootSignature
              else SubobjectKind.GlobalRootSignature
  let r := CreateSubobject reg kind Name
  let obj1 := { r.1 with RootSignature_Data := Data, RootSignature_Size := Size }
  (obj1, setPayload r.2.1 Name obj1, r.2.2)

/-- DxilSubobjects::CreateSubobjectToExportsAssociation: the association
target name is interned; the export pointers are assigned verbatim
(`m_Exports.assign(Exports, Exports + NumExports)`). -/
def CreateSubobjectToExportsAssociation (reg : Registry) (Name : String)
    (SubobjName : String) (Exports : List StrPtr) :
    Subobject × Registry × Bool :=
  let r := CreateSubobject reg SubobjectKind.SubobjectToExportsAssociation Name
  let rs := GetSubobjectString r.2.1 SubobjName
  let obj1 := { r.1 with SubobjectToExportsAssociation_Subobject := rs.1
                         m_Exports := Exports }
  (obj1, setPayload rs.2 Name obj1, r.2.2)

/-- DxilSubobjects::CreateRaytracingShaderConfig. -/
def CreateRaytracingShaderConfig (reg : Registry) (Name : String)
    (MaxPayloadSizeInBytes MaxAttributeSizeInBytes : Nat) :
    Subobject × Registry × Bool :=
  let r := CreateSubobject reg SubobjectKind.RaytracingShaderConfig Name
  let obj1 := { r.1 with
    RaytracingShaderConfig_MaxPayloadSizeInBytes := MaxPayloadSizeInBytes
    RaytracingShaderConfig_MaxAttributeSizeInBytes := MaxAttributeSizeInBytes }
  (obj1, setPayload r.2.1 Name obj1, r.2.2)

/-- DxilSubobjects::CreateRaytracingPipelineConfig. -/
def CreateRaytracingPipelineConfig (reg : Registry) (Name : String)
    (MaxTraceRecursionDepth : Nat) : Subobject × Registry × Bool :=
  let r := CreateSubobject reg SubobjectKind.RaytracingPipelineConfig Name
  let obj1 := { r.1 with
    RaytracingPipelineConfig_MaxTraceRecursionDepth := MaxTraceRecursionDepth }
  (obj1, setPayload r.2.1 Name obj1, r.2.2)

/-- DxilSubobjects::CreateHitGroup: the three shader names are interned and
their stored pointers recorded. -/
def CreateHitGroup (reg : Registry) (Name Intersection AnyHit ClosestHit : String) :
    Subobject × Registry × Bool :=
  let r := CreateSubobject reg SubobjectKind.HitGroup Name
  let ri := GetSubobjectString r.2.1 Intersection
  let ra := GetSubobjectString ri.2 AnyHit
  let rc := GetSubobjectString ra.2 ClosestHit
  let obj1 := { r.1 with HitGroup_Intersection := ri.1
                         HitGroup_AnyHit := ra.1
                         HitGroup_ClosestHit := rc.1 }
  (obj1, setPayload rc.2 Name obj1, r.2.2)

/-- DxilSubobjects::CloneSubobject into `dest` of the subobject `other`
owned by `src`: intern the new name in `dest`, assert name freshness, run
the clone constructor (copy kind, exports and the union member; when the
owners differ, re-intern the strings), and insert under the new name. -/
def CloneSubobject (extS : Nat → String) (dest src : Registry)
    (other : Subobject) (Name : String) : Subobject × Registry × Bool :=
  let rn := GetSubobjectString dest Name
  let ok := (FindSubobject rn.2 Name).isNone
  let s0 := { blankSubobject other.m_Kind rn.1 with m_Exports := other.m_Exports }
  let s1 := CopyUnionedContents s0 other
  let r2 :=
    if (rn.2).id = src.id then (s1, rn.2) else InternStrings extS src rn.2 s1
  (r2.1, { r2.2 with subobjects := mapInsert (r2.2).subobjects Name r2.1 }, ok)

/-- DxilSubobject::GetStateObjectConfig: out-parameters modelled by passing
the caller's current values in and returning the (possibly updated) values. -/
def GetStateObjectConfig (s : Subobject) (Flags : Nat) : Bool × Nat :=
  if s.m_Kind = SubobjectKind.StateObjectConfig then
    (true, s.StateObjectConfig_Flags)
  else (false, Flags)

/-- DxilSubobject::GetRootSignature. -/
def GetRootSignature (s : Subobject) (isLocal : Bool) (Data : BytePtr)
    (Size : Nat) : Bool × BytePtr × Nat :=
  let expected := if isLocal then SubobjectKind.LocalRootSignature
                  else SubobjectKind.GlobalRootSignature
  if s.m_Kind = expected then (true, s.RootSignature_Data, s.RootSignature_Size)
  else (false, Data, Size)

/-- DxilSubobject::GetSubobjectToExportsAssociation. -/
def GetSubobjectToExportsAssociation (s : Subobject) (Subobj : StrPtr)
    (Exports : List StrPtr) (NumExports : Nat) :
    Bool × StrPtr × List StrPtr × Nat :=
  if s.m_Kind = SubobjectKind.SubobjectToExportsAssociation then
    (true, s.SubobjectToExportsAssociation_Subobject, s.m_Exports,
     s.m_Exports.length)
  else (false, Subobj, Exports, NumExports)

/-- DxilSubobject::GetRaytracingShaderConfig. -/
def GetRaytracingShaderConfig (s : Subobject)
    (MaxPayloadSizeInBytes MaxAttributeSizeInBytes : Nat) :
    Bool × Nat × Nat :=
  if s.m_Kind = SubobjectKind.RaytracingShaderConfig then
    (true, s.RaytracingShaderConfig_MaxPayloadSizeInBytes,
     s.RaytracingShaderConfig_MaxAttributeSizeInBytes)
  else (false, MaxPayloadSizeInBytes, MaxAttributeSizeInBytes)

/-- DxilSubobject::GetRaytracingPipelineConfig. -/
def GetRaytracingPipelineConfig (s : Subobject) (MaxTraceRecursionDepth : Nat) :
    Bool × Nat :=
  if s.m_Kind = SubobjectKind.RaytracingPipelineConfig then
    (true, s.RaytracingPipelineConfig_MaxTraceRecursionDepth)
  else (false, MaxTraceRecursionDepth)

/-- DxilSubobject::GetHitGroup. -/
def GetHitGroup (s : Subobject) (Intersection AnyHit ClosestHit : StrPtr) :
    Bool × StrPtr × StrPtr × StrPtr :=
  if s.m_Kind = SubobjectKind.HitGroup then
    (true, s.HitGroup_Intersection, s.HitGroup_AnyHit, s.HitGroup_ClosestHit)
  else (false, Intersection, AnyHit, ClosestHit)

/-- Modelled from the spec: the source-language scalar kinds relevant to
the shape classifiers (the implementations behind TypeTranslator.h are not
in the provided sources; spec section 4.2 and the header's doc comments
determine the behavior).  `float` is the floating-point scalar kind. -/
inductive ScalarKind where
  | float
  | int
  | boolean
deriving DecidableEq, Repr

/-- Modelled from the spec: a source type descriptor — scalar kind,
vector or matrix shape, aggregate field list, or a type with no legal
target representation (spec section 3, SourceType / ShapeDescriptor). -/
inductive SourceType where
  | scalar (k : ScalarKind)
  | vector (elem : ScalarKind) (count : Nat)
  | matrix (elem : ScalarKind) (rows cols : Nat)
  | aggregate (fields : List SourceType)
  | unsupported

/-- Modelled from the spec: TypeTranslator::isVectorType — true for any
vector-shaped type (the header: "either ExtVectorType or HLSL vector
type", no size restriction). -/
def isVectorType : SourceType → Bool
  | SourceType.vector _ _ => true
  | _ => false

/-- Modelled from the spec: TypeTranslator::isVec1Type — a vector type of
size 1. -/
def isVec1Type : SourceType → Bool
  | SourceType.vector _ 1 => true
  | _ => false

/-- Modelled from the spec: TypeTranslator::is1x1Matrix. -/
def is1x1Matrix : SourceType → Bool
  | SourceType.matrix _ 1 1 => true
  | _ => false

/-- Modelled from the spec: TypeTranslator::is1xNMatrix — a 1xN (N > 1)
matrix type. -/
def is1xNMatrix : SourceType → Bool
  | SourceType.matrix _ 1 (_ + 2) => true
  | _ => false

/-- Modelled from the spec: TypeTranslator::isMx1Matrix — an Mx1 (M > 1)
matrix type. -/
def isMx1Matrix : SourceType → Bool
  | SourceType.matrix _ (_ + 2) 1 => true
  | _ => false

/-- Modelled from the spec: TypeTranslator::isMx1Or1xNMatrix. -/
def isMx1Or1xNMatrix (t : SourceType) : Bool :=
  isMx1Matrix t || is1xNMatrix t

/-- Modelled from the spec: TypeTranslator::is1x1OrMx1Or1xNMatrix. -/
def is1x1OrMx1Or1xNMatrix (t : SourceType) : Bool :=
  is1x1Matrix t || isMx1Matrix t || is1xNMatrix t

/-- Modelled from the spec: TypeTranslator::isMxNMatrix — a matrix with
more than 1 row and more than 1 column. -/
def isMxNMatrix : SourceType → Bool
  | SourceType.matrix _ (_ + 2) (_ + 2) => true
  | _ => false

/-- Modelled from the spec: TypeTranslator::isSpirvAcceptableMatrixType —
floating-point elements and greater than 1 row and column counts. -/
def isSpirvAcceptableMatrixType : SourceType → Bool
  | SourceType.matrix ScalarKind.float (_ + 2) (_ + 2) => true
  | _ => false

/-- Modelled from the spec: the structural descriptors handed to the
IR-builder collaborator (spec section 6, emitOrReuseType). -/
inductive IRTypeDesc where
  | scalarT (k : ScalarKind)
  | vectorT (elemId : Nat) (count : Nat)
  | arrayT (elemId : Nat) (length : Nat)
  | structT (fieldIds : List Nat)
deriving DecidableEq, Repr

/-- Modelled from the spec: the IR-builder collaborator owns the emitted
type definitions; ids are positive (0 is the invalid sentinel). -/
structure ModuleBuilder where
  emitted : List IRTypeDesc
deriving DecidableEq, Repr

/-- Index of the first structurally identical emitted descriptor. -/
def findDesc : List IRTypeDesc → IRTypeDesc → Option Nat
  | [], _ => none
  | d :: rest, v => if d = v then some 0 else (findDesc rest v).map (· + 1)

/-- Modelled from the spec: `emitOrReuseType(structuralDescriptor)` — the
builder deduplicates identical structural descriptors and hands out
positive ids. -/
def emitOrReuseType (b : ModuleBuilder) (d : IRTypeDesc) : Nat × ModuleBuilder :=
  match findDesc b.emitted d with
  | some i => (i + 1, b)
  | none => (b.emitted.length + 1, { b with emitted := b.emitted ++ [d] })

mutual

/-- Modelled from the spec: TypeTranslator::translateType (spec section
4.1).  Threads the builder and the diagnostic collaborator's message list;
`some (0, b, d)` is the diagnostic-error outcome returning the invalid
sentinel id 0, and `none` is the fatal internal-consistency outcome
(direct lowering of a degenerate 1x1 / 1xN / Mx1 matrix shape). -/
def translateType (b : ModuleBuilder) (d : List String) :
    SourceType → Option (Nat × ModuleBuilder × List String)
  | SourceType.scalar k =>
      let r := emitOrReuseType b (IRTypeDesc.scalarT k)
      some (r.1, r.2, d)
  | SourceType.vector k n =>
      let re := emitOrReuseType b (IRTypeDesc.scalarT k)
      let rv := emitOrReuseType re.2 (IRTypeDesc.vectorT re.1 n)
      some (rv.1, rv.2, d)
  | SourceType.matrix k m n =>
      if 1 < m ∧ 1 < n then
        if k = ScalarKind.float then
          let re := emitOrReuseType b (IRTypeDesc.scalarT k)
          let rr := emitOrReuseType re.2 (IRTypeDesc.vectorT re.1 n)
          let ra := emitOrReuseType rr.2 (IRTypeDesc.arrayT rr.1 m)
          some (ra.1, ra.2, d)
        else some (0, b, d ++ [ "matrix type is not supported" ])
      else none
  | SourceType.aggregate fs => translateFields b d fs []
  | SourceType.unsupported => some (0, b, d ++ [ "type is not supported" ])

/-- Modelled from the spec: lower the aggregate's fields in declaration
order, abandoning the enclosing construct on the first field that fails
with the sentinel id. -/
def translateFields (b : ModuleBuilder) (d : List String) :
    List SourceType → List Nat → Option (Nat × ModuleBuilder × List String)
  | [], acc =>
      let rs := emitOrReuseType b (IRTypeDesc.structT acc.reverse)
      some (rs.1, rs.2, d)
  | f :: fs, acc =>
      match translateType b d f with
      | none => none
      | some r =>
          if r.1 = 0 then some (0, r.2.1, r.2.2)
          else translateFields r.2.1 r.2.2 fs (r.1 :: acc)

end

mutual

/-- A type every component of which lowers to a valid id (no diagnostic,
no fatal path). -/
def goodType : SourceType → Bool
  | SourceType.scalar _ => true
  | SourceType.vector _ _ => true
  | SourceType.matrix k m n => 1 < m && 1 < n && k = ScalarKind.float
  | SourceType.aggregate fs => goodFields fs
  | SourceType.unsupported => false

/-- All fields lower to valid ids. -/
def goodFields : List SourceType → Bool
  | [] => true
  | f :: fs => goodType f && goodFields fs

end

mutual

/-- A type with no legal target representation whose translation reaches
the diagnostic (not the fatal) path: the unsupported type itself, a
non-floating MxN matrix, or an aggregate whose first failing field is such
a type (all fields before it lowering cleanly). -/
def Unrepresentable : SourceType → Bool
  | SourceType.unsupported => true
  | SourceType.matrix k m n => 1 < m && 1 < n && !(k = ScalarKind.float)
  | SourceType.aggregate fs => UnrepFields fs
  | SourceType.scalar _ => false
  | SourceType.vector _ _ => false

/-- Some field is unrepresentable, and every field before the first such
field lowers cleanly. -/
def UnrepFields : List SourceType → Bool
  | [] => false
  | f :: fs => Unrepresentable f || (goodType f && UnrepFields fs)

end

/-! Helper lemmas about the interning stores and the name-keyed map. -/

/-- Content absent from `l` is found at position `l.length` after appending. -/
theorem findIndex_append_of_none (l : List String) (v : String)
    (h : findIndex l v = none) : findIndex (l ++ [v]) v = some l.length := by
  induction l with
  | nil => simp [findIndex]
  | cons s rest ih =>
      by_cases hs : s = v
      · simp [findIndex, hs] at h
      · simp [findIndex, hs] at h ⊢
        exact ih h

/-- GetSubobjectString never changes the registry's identity. -/
theorem gss_id (reg : Registry) (v : String) :
    ((GetSubobjectString reg v).2).id = reg.id := by
  unfold GetSubobjectString; split <;> rfl

/-- GetSubobjectString never touches the subobject map. -/
theorem gss_subobjects (reg : Registry) (v : String) :
    ((GetSubobjectString reg v).2).subobjects = reg.subobjects := by
  unfold GetSubobjectString; split <;> rfl

/-- GetSubobjectString never touches the byte store. -/
theorem gss_rawBytes (reg : Registry) (v : String) :
    ((GetSubobjectString reg v).2).rawBytes = reg.rawBytes := by
  unfold GetSubobjectString; split <;> rfl

/-- GetSubobjectString returns a pointer into this registry's store. -/
theorem gss_fst (reg : Registry) (v : String) :
    ∃ i, (GetSubobjectString reg v).1 = StrPtr.interned reg.id i := by
  unfold GetSubobjectString; split <;> exact ⟨_, rfl⟩

/-- Interning the same content twice returns the same stored instance and
leaves the registry (in particular the string store) unchanged. -/
theorem gss_idem (reg : Registry) (v : String) :
    GetSubobjectString (GetSubobjectString reg v).2 v =
      ((GetSubobjectString reg v).1, (GetSubobjectString reg v).2) := by
  unfold GetSubobjectString
  cases h : findIndex reg.strings v with
  | some i => simp [h]
  | none => simp [h, findIndex_append_of_none reg.strings v h]

/-- Insert-or-overwrite followed by lookup of the same key. -/
theorem mapFind_insert_self (m : List (String × Subobject)) (k : String)
    (v : Subobject) : mapFind (mapInsert m k v) k = some v := by
  induction m with
  | nil => simp [mapInsert, mapFind]
  | cons kv rest ih =>
      obtain ⟨k', v'⟩ := kv
      by_cases h : k' = k
      · simp [mapInsert, mapFind, h]
      · simp [mapInsert, mapFind, h, ih]

/-- Insert-or-overwrite leaves other keys' bindings unchanged. -/
theorem mapFind_insert_other (m : List (String × Subobject)) (k k' : String)
    (v : Subobject) (h : k' ≠ k) :
    mapFind (mapInsert m k v) k' = mapFind m k' := by
  have hk : ¬k = k' := fun hh => h (Eq.symm hh)
  induction m with
  | nil => simp [mapInsert, mapFind, hk]
  | cons kv rest ih =>
      obtain ⟨k0, v0⟩ := kv
      by_cases h0 : k0 = k
      · subst h0
        simp [mapInsert, mapFind, hk]
      · simp [mapInsert, mapFind, h0, ih]

/-- Erasing an absent key is a no-op. -/
theorem mapErase_of_not_found (m : List (String × Subobject)) (k : String)
    (h : mapFind m k = none) : mapErase m k = m := by
  induction m with
  | nil => simp [mapErase]
  | cons kv rest ih =>
      obtain ⟨k0, v0⟩ := kv
      by_cases h0 : k0 = k
      · simp [mapFind, h0] at h
      · simp [mapFind, h0] at h
        simp [mapErase, h0, ih h]

/-- At most one binding per key. -/
def keysNodup : List (String × Subobject) → Bool
  | [] => true
  | (k, _) :: rest => (mapFind rest k).isNone && keysNodup rest

/-- Erasing a key of a duplicate-free map removes its binding. -/
theorem mapFind_erase_self (m : List (String × Subobject)) (k : String)
    (h : keysNodup m = true) : mapFind (mapErase m k) k = none := by
  induction m with
  | nil => simp [mapErase, mapFind]
  | cons kv rest ih =>
      obtain ⟨k0, v0⟩ := kv
      simp [keysNodup] at h
      by_cases h0 : k0 = k
      · subst h0
        simpa [mapErase, Option.isNone_iff_eq_none] using h.1
      · simp [mapErase, mapFind, h0, ih h.2]

/-- Erasing one key leaves other keys' bindings unchanged. -/
theorem mapFind_erase_other (m : List (String × Subobject)) (k k' : String)
    (h : k' ≠ k) : mapFind (mapErase m k) k' = mapFind m k' := by
  have hk : ¬k = k' := fun hh => h (Eq.symm hh)
  induction m with
  | nil => simp [mapErase]
  | cons kv rest ih =>
      obtain ⟨k0, v0⟩ := kv
      by_cases h0 : k0 = k
      · subst h0
        simp [mapErase, mapFind, hk]
      · simp [mapErase, mapFind, h0, ih]

/-! The claims. -/

/-- Claim C6: string interning is idempotent — for every registry, calling
GetSubobjectString twice with equal string content returns equal
(pointer-identical) stored references, and the second call does not grow
the string store (it returns the registry unchanged). -/
theorem C6_string_interning_idempotent :
    ∀ (reg : Registry) (value : String),
      GetSubobjectString (GetSubobjectString reg value).2 value =
        ((GetSubobjectString reg value).1, (GetSubobjectString reg value).2) ∧
      ((GetSubobjectString (GetSubobjectString reg value).2 value).2).strings =
        ((GetSubobjectString reg value).2).strings := by
  intro reg value
  refine ⟨gss_idem reg value, ?_⟩
  rw [gss_idem reg value]

/-- Claim C9: RemoveSubobject deletes the named Subobject when present
(its key becoming unbound), is a no-op when the name is absent, leaves
every other name's binding unchanged, and in all cases leaves the interned
string store and the byte-blob store untouched. -/
theorem C9_remove_subobject :
    ∀ (reg : Registry) (name : String),
      (RemoveSubobject reg name).strings = reg.strings ∧
      (RemoveSubobject reg name).rawBytes = reg.rawBytes ∧
      (RemoveSubobject reg name).id = reg.id ∧
      (FindSubobject reg name = none → RemoveSubobject reg name = reg) ∧
      (keysNodup reg.subobjects = true →
        FindSubobject (RemoveSubobject reg name) name = none) ∧
      (∀ other, other ≠ name →
        FindSubobject (RemoveSubobject reg name) other =
          FindSubobject reg other) := by
  intro reg name
  refine ⟨rfl, rfl, rfl, ?_, ?_, ?_⟩
  · intro h
    have := mapErase_of_not_found reg.subobjects name h
    simp [RemoveSubobject, this]
  · intro h
    exact mapFind_erase_self reg.subobjects name h
  · intro other h
    exact mapFind_erase_other reg.subobjects name other h

/-- Concrete byte buffers for the witnesses and counterexamples: every
external buffer holds the bytes 7, 7. -/
def extBytes : Nat → List Nat := fun _ => [7, 7]

/-- Concrete string contents for external string buffers. -/
def extStr : Nat → String := fun _ => ""

/-- Witness for C9 at a concrete registry holding one subobject. -/
theorem C9_remove_subobject_witness :
    FindSubobject
      (RemoveSubobject ((CreateStateObjectConfig (Registry.fresh 0) "A" 1).2.1) "A")
      "A" = none ∧
    (RemoveSubobject ((CreateStateObjectConfig (Registry.fresh 0) "A" 1).2.1) "A").strings =
      ((CreateStateObjectConfig (Registry.fresh 0) "A" 1).2.1).strings := by
  refine ⟨?_, ?_⟩
  · exact (C9_remove_subobject ((CreateStateObjectConfig (Registry.fresh 0) "A" 1).2.1) "A").2.2.2.2.1
      (by decide)
  · exact (C9_remove_subobject ((CreateStateObjectConfig (Registry.fresh 0) "A" 1).2.1) "A").1

/-- Claim C10: a GetRawBytes call whose buffer is not already stored
returns the null pointer and leaves the byte store (indeed the whole
registry) unchanged when `size >= UINT_MAX`, and otherwise appends a copy
of the first `size` bytes and returns a non-null pointer to that stored
copy. -/
theorem C10_get_raw_bytes_size_guard :
    ∀ (extM : Nat → List Nat) (reg : Registry) (p : BytePtr) (size : Nat),
      isRawKey reg p = false →
      (UINT_MAX ≤ size → GetRawBytes extM reg p size = (none, reg)) ∧
      (size < UINT_MAX →
        (GetRawBytes extM reg p size).1 =
          some (BytePtr.stored reg.id reg.rawBytes.length) ∧
        ((GetRawBytes extM reg p size).2).rawBytes =
          reg.rawBytes ++ [(readRawPtr extM reg p).take size] ∧
        ((GetRawBytes extM reg p size).2).strings = reg.strings ∧
        ((GetRawBytes extM reg p size).2).subobjects = reg.subobjects) := by
  intro extM reg p size h
  constructor
  · intro hs
    simp [GetRawBytes, h, hs]
  · intro hs
    simp [GetRawBytes, h, Nat.not_le.mpr hs]

/-- Witness for C10: with a two-byte external buffer, size `UINT_MAX`
yields the null pointer and no change, size 2 yields a stored copy. -/
theorem C10_get_raw_bytes_size_guard_witness :
    GetRawBytes extBytes (Registry.fresh 0) (BytePtr.ext 5) UINT_MAX =
      (none, Registry.fresh 0) ∧
    (GetRawBytes extBytes (Registry.fresh 0) (BytePtr.ext 5) 2).1 =
      some (BytePtr.stored 0 0) := by
  constructor
  · exact (C10_get_raw_bytes_size_guard extBytes (Registry.fresh 0)
      (BytePtr.ext 5) UINT_MAX (by decide)).1 (Nat.le_refl _)
  · exact ((C10_get_raw_bytes_size_guard extBytes (Registry.fresh 0)
      (BytePtr.ext 5) 2 (by decide)).2 (by decide)).1

/-- The freshly created subobject carries the requested kind. -/
theorem createSubobject_kind (reg : Registry) (kind : SubobjectKind)
    (nm : String) : (CreateSubobject reg kind nm).1.m_Kind = kind := by
  simp [CreateSubobject, blankSubobject]

/-- The duplicate-name assertion of CreateSubobject holds exactly when the
name was unbound on entry. -/
theorem createSubobject_ok (reg : Registry) (kind : SubobjectKind)
    (nm : String) :
    (CreateSubobject reg kind nm).2.2 = (FindSubobject reg nm).isNone := by
  simp only [CreateSubobject, FindSubobject]
  rw [gss_subobjects]

/-- After CreateSubobject the name is bound to the returned subobject,
whether or not it was bound before. -/
theorem createSubobject_find (reg : Registry) (kind : SubobjectKind)
    (nm : String) :
    FindSubobject (CreateSubobject reg kind nm).2.1 nm =
      some (CreateSubobject reg kind nm).1 := by
  simp only [CreateSubobject, FindSubobject]
  exact mapFind_insert_self _ nm _

/-- The clone-path duplicate-name assertion holds exactly when the new name
was unbound in the destination on entry. -/
theorem cloneSubobject_ok (extS : Nat → String) (dest src : Registry)
    (other : Subobject) (nm : String) :
    (CloneSubobject extS dest src other nm).2.2 =
      (FindSubobject dest nm).isNone := by
  simp only [CloneSubobject, FindSubobject]
  rw [gss_subobjects]

/-- After CloneSubobject the new name is bound to the returned clone,
whether or not it was bound before. -/
theorem cloneSubobject_find (extS : Nat → String) (dest src : Registry)
    (other : Subobject) (nm : String) :
    FindSubobject (CloneSubobject extS dest src other nm).2.1 nm =
      some (CloneSubobject extS dest src other nm).1 := by
  simp only [CloneSubobject, FindSubobject]
  exact mapFind_insert_self _ nm _

/-- Claim C5: for each kind K, the per-kind accessor returns true exactly
on subobjects of kind K (GetRootSignature against the kind selected by its
local flag), and on a kind mismatch it returns false with every
out-parameter left at the caller's value; the kind itself is fixed at
creation. -/
theorem C5_accessor_kind_contract :
    ∀ (s : Subobject) (fl : Nat) (lcl : Bool) (dat : BytePtr) (sz : Nat)
      (sp : StrPtr) (ex : List StrPtr) (nEx : Nat) (pay attr dep : Nat)
      (i1 a1 c1 : StrPtr) (reg : Registry) (kind : SubobjectKind) (nm : String),
      ((GetStateObjectConfig s fl).1 = true ↔
        s.m_Kind = SubobjectKind.StateObjectConfig) ∧
      (s.m_Kind ≠ SubobjectKind.StateObjectConfig →
        GetStateObjectConfig s fl = (false, fl)) ∧
      ((GetRootSignature s lcl dat sz).1 = true ↔
        s.m_Kind = (if lcl then SubobjectKind.LocalRootSignature
                    else SubobjectKind.GlobalRootSignature)) ∧
      (s.m_Kind ≠ (if lcl then SubobjectKind.LocalRootSignature
                   else SubobjectKind.GlobalRootSignature) →
        GetRootSignature s lcl dat sz = (false, dat, sz)) ∧
      ((GetSubobjectToExportsAssociation s sp ex nEx).1 = true ↔
        s.m_Kind = SubobjectKind.SubobjectToExportsAssociation) ∧
      (s.m_Kind ≠ SubobjectKind.SubobjectToExportsAssociation →
        GetSubobjectToExportsAssociation s sp ex nEx = (false, sp, ex, nEx)) ∧
      ((GetRaytracingShaderConfig s pay attr).1 = true ↔
        s.m_Kind = SubobjectKind.RaytracingShaderConfig) ∧
      (s.m_Kind ≠ SubobjectKind.RaytracingShaderConfig →
        GetRaytracingShaderConfig s pay attr = (false, pay, attr)) ∧
      ((GetRaytracingPipelineConfig s dep).1 = true ↔
        s.m_Kind = SubobjectKind.RaytracingPipelineConfig) ∧
      (s.m_Kind ≠ SubobjectKind.RaytracingPipelineConfig →
        GetRaytracingPipelineConfig s dep = (false, dep)) ∧
      ((GetHitGroup s i1 a1 c1).1 = true ↔
        s.m_Kind = SubobjectKind.HitGroup) ∧
      (s.m_Kind ≠ SubobjectKind.HitGroup →
        GetHitGroup s i1 a1 c1 = (false, i1, a1, c1)) ∧
      (CreateSubobject reg kind nm).1.m_Kind = kind := by
  intro s fl lcl dat sz sp ex nEx pay attr dep i1 a1 c1 reg kind nm
  refine ⟨?_, ?_, ?_, ?_, ?_, ?_, ?_, ?_, ?_, ?_, ?_, ?_,
    createSubobject_kind reg kind nm⟩
  · by_cases h : s.m_Kind = SubobjectKind.StateObjectConfig <;>
      simp [GetStateObjectConfig, h]
  · intro h; simp [GetStateObjectConfig, h]
  · by_cases h : s.m_Kind = (if lcl then SubobjectKind.LocalRootSignature
        else SubobjectKind.GlobalRootSignature) <;>
      simp [GetRootSignature, h]
  · intro h; simp [GetRootSignature, h]
  · by_cases h : s.m_Kind = SubobjectKind.SubobjectToExportsAssociation <;>
      simp [GetSubobjectToExportsAssociation, h]
  · intro h; simp [GetSubobjectToExportsAssociation, h]
  · by_cases h : s.m_Kind = SubobjectKind.RaytracingShaderConfig <;>
      simp [GetRaytracingShaderConfig, h]
  · intro h; simp [GetRaytracingShaderConfig, h]
  · by_cases h : s.m_Kind = SubobjectKind.RaytracingPipelineConfig <;>
      simp [GetRaytracingPipelineConfig, h]
  · intro h; simp [GetRaytracingPipelineConfig, h]
  · by_cases h : s.m_Kind = SubobjectKind.HitGroup <;> simp [GetHitGroup, h]
  · intro h; simp [GetHitGroup, h]

/-- Witness for C5 at a concrete StateObjectConfig subobject: its own
accessor succeeds with the stored flags, a mismatched accessor fails and
echoes the inputs back. -/
theorem C5_accessor_kind_contract_witness :
    (GetStateObjectConfig (CreateStateObjectConfig (Registry.fresh 0) "A" 3).1 0).1
      = true ∧
    GetHitGroup (CreateStateObjectConfig (Registry.fresh 0) "A" 3).1
        (StrPtr.ext 1) (StrPtr.ext 2) (StrPtr.ext 3) =
      (false, StrPtr.ext 1, StrPtr.ext 2, StrPtr.ext 3) := by
  obtain ⟨h1, h2, h3, h4, h5, h6, h7, h8, h9, h10, h11, h12, h13⟩ :=
    C5_accessor_kind_contract (CreateStateObjectConfig (Registry.fresh 0) "A" 3).1
      0 false (BytePtr.ext 0) 0 (StrPtr.ext 0) [] 0 0 0 0
      (StrPtr.ext 1) (StrPtr.ext 2) (StrPtr.ext 3)
      (Registry.fresh 0) SubobjectKind.HitGroup "B"
  exact ⟨h1.mpr (by decide), h12 (by decide)⟩

/-- Claim C1 counterexample: with assertions compiled out, creating a
second subobject under the already-bound name A does not fail and replaces
the stored StateObjectConfig by the new RaytracingPipelineConfig. -/
theorem C1_counterexample :
    (CreateRaytracingPipelineConfig
        ((CreateStateObjectConfig (Registry.fresh 0) "A" 1).2.1) "A" 5).2.2
      = false ∧
    FindSubobject
        ((CreateRaytracingPipelineConfig
          ((CreateStateObjectConfig (Registry.fresh 0) "A" 1).2.1) "A" 5).2.1)
        "A" ≠
      FindSubobject ((CreateStateObjectConfig (Registry.fresh 0) "A" 1).2.1) "A" ∧
    (FindSubobject
        ((CreateRaytracingPipelineConfig
          ((CreateStateObjectConfig (Registry.fresh 0) "A" 1).2.1) "A" 5).2.1)
        "A").map Subobject.m_Kind =
      some SubobjectKind.RaytracingPipelineConfig := by
  decide

/-- Claim C1 (amended): creating (via CreateSubobject, hence via every
Create* factory) or cloning under an already-present name trips the
duplicate-name assertion — the only rejection the code has, and one that
is compiled out in release builds — after which the new subobject is
inserted over the old binding: the previously stored subobject under that
name is replaced, not preserved. -/
theorem C1_duplicate_name_asserts_then_overwrites :
    (∀ (reg : Registry) (kind : SubobjectKind) (nm : String),
      (FindSubobject reg nm).isSome = true →
      (CreateSubobject reg kind nm).2.2 = false ∧
      FindSubobject (CreateSubobject reg kind nm).2.1 nm =
        some (CreateSubobject reg kind nm).1) ∧
    (∀ (extS : Nat → String) (dest src : Registry) (other : Subobject)
       (nm : String),
      (FindSubobject dest nm).isSome = true →
      (CloneSubobject extS dest src other nm).2.2 = false ∧
      FindSubobject (CloneSubobject extS dest src other nm).2.1 nm =
        some (CloneSubobject extS dest src other nm).1) := by
  constructor
  · intro reg kind nm h
    refine ⟨?_, createSubobject_find reg kind nm⟩
    rw [createSubobject_ok]
    cases hm : FindSubobject reg nm with
    | none => rw [hm] at h; simp at h
    | some v => rfl
  · intro extS dest src other nm h
    refine ⟨?_, cloneSubobject_find extS dest src other nm⟩
    rw [cloneSubobject_ok]
    cases hm : FindSubobject dest nm with
    | none => rw [hm] at h; simp at h
    | some v => rfl

/-- Witness for the amended C1 at a concrete registry already binding A. -/
theorem C1_duplicate_name_asserts_then_overwrites_witness :
    (FindSubobject ((CreateStateObjectConfig (Registry.fresh 0) "A" 1).2.1)
        "A").isSome = true ∧
    (CreateSubobject ((CreateStateObjectConfig (Registry.fresh 0) "A" 1).2.1)
        SubobjectKind.HitGroup "A").2.2 = false := by
  refine ⟨by decide, ?_⟩
  exact (C1_duplicate_name_asserts_then_overwrites.1
    ((CreateStateObjectConfig (Registry.fresh 0) "A" 1).2.1)
    SubobjectKind.HitGroup "A" (by decide)).1

/-- Claim C4 counterexample: with valid mask 0x3, creating cfg2 with flags
0x4 is not rejected — the subobject is stored carrying the out-of-mask
flag, and only the (compiled-out) assertion condition records the
violation. -/
theorem C4_counterexample :
    (FindSubobject ((CreateStateObjectConfig (Registry.fresh 0) "cfg2" 4).2.1)
        "cfg2").map Subobject.StateObjectConfig_Flags = some 4 ∧
    invalidFlagBits 4 ≠ 0 ∧
    (CreateStateObjectConfig (Registry.fresh 0) "cfg2" 4).2.2 = false := by
  refine ⟨by decide, by decide, by decide⟩

/-- Claim C4 (amended): CreateStateObjectConfig checks the flags against
the valid mask only through a debug assertion: under a fresh name the
assertion conjunction holds exactly when no bit lies outside the mask, yet
the flags are stored verbatim and the subobject is registered in every
case, so a stored StateObjectConfig can carry out-of-mask bits. -/
theorem C4_flags_checked_by_assertion_only :
    ∀ (reg : Registry) (nm : String) (Flags : Nat),
      FindSubobject reg nm = none →
      (CreateStateObjectConfig reg nm Flags).1.StateObjectConfig_Flags = Flags ∧
      FindSubobject (CreateStateObjectConfig reg nm Flags).2.1 nm =
        some (CreateStateObjectConfig reg nm Flags).1 ∧
      ((CreateStateObjectConfig reg nm Flags).2.2 = true ↔
        invalidFlagBits Flags = 0) := by
  intro reg nm Flags h
  refine ⟨rfl, ?_, ?_⟩
  · simp only [CreateStateObjectConfig, setPayload, FindSubobject]
    exact mapFind_insert_self _ nm _
  · simp only [CreateStateObjectConfig]
    rw [createSubobject_ok, h]
    simp

/-- Witness for the amended C4: flags 3 pass the assertion, flags 4 fail
it; both are stored verbatim. -/
theorem C4_flags_checked_by_assertion_only_witness :
    (CreateStateObjectConfig (Registry.fresh 0) "cfg" 3).1.StateObjectConfig_Flags
      = 3 ∧
    ((CreateStateObjectConfig (Registry.fresh 0) "cfg" 3).2.2 = true ↔
      invalidFlagBits 3 = 0) ∧
    (CreateStateObjectConfig (Registry.fresh 0) "cfg2" 4).1.StateObjectConfig_Flags
      = 4 := by
  refine ⟨(C4_flags_checked_by_assertion_only (Registry.fresh 0) "cfg" 3 rfl).1,
    (C4_flags_checked_by_assertion_only (Registry.fresh 0) "cfg" 3 rfl).2.2,
    (C4_flags_checked_by_assertion_only (Registry.fresh 0) "cfg2" 4 rfl).1⟩

/-- A pointer that is a key of the byte store is returned unchanged. -/
theorem getRawBytes_key (extM : Nat → List Nat) (reg : Registry) (p : BytePtr)
    (size : Nat) (h : isRawKey reg p = true) :
    GetRawBytes extM reg p size = (some p, reg) := by
  simp [GetRawBytes, h]

/-- A buffer that is not a key is copied into a fresh store entry. -/
theorem getRawBytes_fresh (extM : Nat → List Nat) (reg : Registry)
    (p : BytePtr) (size : Nat) (hk : isRawKey reg p = false)
    (hs : size < UINT_MAX) :
    GetRawBytes extM reg p size =
      (some (BytePtr.stored reg.id reg.rawBytes.length),
       { reg with rawBytes :=
           reg.rawBytes ++ [(readRawPtr extM reg p).take size] }) := by
  simp [GetRawBytes, hk, Nat.not_le.mpr hs]

/-- Claim C2 counterexample: submitting byte-equal content from three
buffers — two distinct external buffers and then the first buffer again —
produces three distinct stored copies: equal content is not deduplicated,
and even resubmitting the very same external buffer grows the store,
because the store is keyed by the pointers of the stored copies. -/
theorem C2_counterexample :
    (GetRawBytes extBytes (Registry.fresh 0) (BytePtr.ext 0) 2).1 =
      some (BytePtr.stored 0 0) ∧
    (GetRawBytes extBytes
        ((GetRawBytes extBytes (Registry.fresh 0) (BytePtr.ext 0) 2).2)
        (BytePtr.ext 1) 2).1 = some (BytePtr.stored 0 1) ∧
    (GetRawBytes extBytes
        ((GetRawBytes extBytes
          ((GetRawBytes extBytes (Registry.fresh 0) (BytePtr.ext 0) 2).2)
          (BytePtr.ext 1) 2).2)
        (BytePtr.ext 0) 2).1 = some (BytePtr.stored 0 2) ∧
    ((GetRawBytes extBytes
        ((GetRawBytes extBytes
          ((GetRawBytes extBytes (Registry.fresh 0) (BytePtr.ext 0) 2).2)
          (BytePtr.ext 1) 2).2)
        (BytePtr.ext 0) 2).2).rawBytes = [[7, 7], [7, 7], [7, 7]] := by
  refine ⟨by decide, by decide, by decide, by decide⟩

/-- Claim C2 (amended): GetRawBytes deduplicates by pointer identity
against the stored copies only — a pointer previously returned by
GetRawBytes is returned unchanged with no growth of the byte store, while
a call with any external buffer below the size limit always appends a new
copy, equal stored content notwithstanding. -/
theorem C2_raw_bytes_identity_dedup :
    (∀ (extM : Nat → List Nat) (reg : Registry) (p : BytePtr)
       (size : Nat) (q : BytePtr) (size2 : Nat),
      (GetRawBytes extM reg p size).1 = some q →
      GetRawBytes extM (GetRawBytes extM reg p size).2 q size2 =
        (some q, (GetRawBytes extM reg p size).2)) ∧
    (∀ (extM : Nat → List Nat) (reg : Registry) (e : Nat) (size : Nat),
      size < UINT_MAX →
      ((GetRawBytes extM reg (BytePtr.ext e) size).2).rawBytes.length =
        reg.rawBytes.length + 1) := by
  constructor
  · intro extM reg p size q size2 h
    by_cases hk : isRawKey reg p
    · rw [getRawBytes_key extM reg p size hk] at h ⊢
      injection h with h
      subst h
      exact getRawBytes_key extM reg p size2 hk
    · by_cases hs : UINT_MAX ≤ size
      · simp [GetRawBytes, hk, hs] at h
      · have hs' : size < UINT_MAX := Nat.not_le.mp hs
        rw [getRawBytes_fresh extM reg p size (by simpa using hk) hs'] at h ⊢
        injection h with h
        subst h
        apply getRawBytes_key
        simp [isRawKey]
  · intro extM reg e size hs
    rw [getRawBytes_fresh extM reg (BytePtr.ext e) size rfl hs]
    simp

/-- Witness for the amended C2: resubmitting the stored pointer returned
for a fresh two-byte buffer is a no-op, and the fresh submission grew the
store by one entry. -/
theorem C2_raw_bytes_identity_dedup_witness :
    GetRawBytes extBytes
        ((GetRawBytes extBytes (Registry.fresh 0) (BytePtr.ext 0) 2).2)
        (BytePtr.stored 0 0) 2 =
      (some (BytePtr.stored 0 0),
       (GetRawBytes extBytes (Registry.fresh 0) (BytePtr.ext 0) 2).2) ∧
    ((GetRawBytes extBytes (Registry.fresh 0) (BytePtr.ext 0) 2).2).rawBytes.length
      = 1 := by
  constructor
  · exact C2_raw_bytes_identity_dedup.1 extBytes (Registry.fresh 0)
      (BytePtr.ext 0) 2 (BytePtr.stored 0 0) 2 (by decide)
  · exact C2_raw_bytes_identity_dedup.2 extBytes (Registry.fresh 0) 0 2
      (by decide)

/-- Interning a list of export pointers touches only the destination's
string store and yields pointers into it. -/
theorem internExports_spec (extS : Nat → String) (src : Registry) :
    ∀ (ps : List StrPtr) (dest : Registry),
      ((internExports extS src dest ps).2).id = dest.id ∧
      ((internExports extS src dest ps).2).rawBytes = dest.rawBytes ∧
      ((internExports extS src dest ps).2).subobjects = dest.subobjects ∧
      ∀ r ∈ (internExports extS src dest ps).1,
        ∃ i, r = StrPtr.interned dest.id i := by
  intro ps
  induction ps with
  | nil => intro dest; simp [internExports]
  | cons p rest ih =>
      intro dest
      obtain ⟨h1, h2, h3, h4⟩ :=
        ih (GetSubobjectString dest (readStrPtr extS src dest p)).2
      refine ⟨?_, ?_, ?_, ?_⟩
      · show ((internExports extS src _ rest).2).id = dest.id
        rw [h1, gss_id]
      · show ((internExports extS src _ rest).2).rawBytes = dest.rawBytes
        rw [h2, gss_rawBytes]
      · show ((internExports extS src _ rest).2).subobjects = dest.subobjects
        rw [h3, gss_subobjects]
      · intro r hr
        simp only [internExports, List.mem_cons] at hr
        cases hr with
        | inl hhead =>
            obtain ⟨i, hi⟩ := gss_fst dest (readStrPtr extS src dest p)
            exact ⟨i, by rw [hhead, hi]⟩
        | inr htail =>
            obtain ⟨i, hi⟩ := h4 r htail
            exact ⟨i, by rw [hi, gss_id]⟩

/-- Copying the unioned contents never changes the kind. -/
theorem copyUnioned_kind (s other : Subobject) :
    (CopyUnionedContents s other).m_Kind = s.m_Kind := by
  cases h : s.m_Kind <;> simp [CopyUnionedContents, h]

/-- For root-signature kinds, copying the unioned contents copies the blob
pointer and size verbatim. -/
theorem copyUnioned_rootsig (s other : Subobject)
    (h : s.m_Kind = SubobjectKind.GlobalRootSignature ∨
         s.m_Kind = SubobjectKind.LocalRootSignature) :
    (CopyUnionedContents s other).RootSignature_Data =
      other.RootSignature_Data ∧
    (CopyUnionedContents s other).RootSignature_Size =
      other.RootSignature_Size := by
  cases h with
  | inl h => simp [CopyUnionedContents, h]
  | inr h => simp [CopyUnionedContents, h]

/-- InternStrings re-interns the name and the per-kind string members into
the owner (destination) registry, leaves the destination's byte store and
subobject map alone, and never touches the root-signature blob member. -/
theorem internStrings_spec (extS : Nat → String) (src dest : Registry)
    (s : Subobject) :
    ((InternStrings extS src dest s).2).id = dest.id ∧
    ((InternStrings extS src dest s).2).rawBytes = dest.rawBytes ∧
    ((InternStrings extS src dest s).2).subobjects = dest.subobjects ∧
    (InternStrings extS src dest s).1.m_Kind = s.m_Kind ∧
    (∃ i, (InternStrings extS src dest s).1.m_Name =
      StrPtr.interned dest.id i) ∧
    (InternStrings extS src dest s).1.RootSignature_Data =
      s.RootSignature_Data ∧
    (InternStrings extS src dest s).1.RootSignature_Size =
      s.RootSignature_Size ∧
    (s.m_Kind = SubobjectKind.HitGroup →
      (∃ i, (InternStrings extS src dest s).1.HitGroup_Intersection =
        StrPtr.interned dest.id i) ∧
      (∃ i, (InternStrings extS src dest s).1.HitGroup_AnyHit =
        StrPtr.interned dest.id i) ∧
      (∃ i, (InternStrings extS src dest s).1.HitGroup_ClosestHit =
        StrPtr.interned dest.id i)) ∧
    (s.m_Kind = SubobjectKind.SubobjectToExportsAssociation →
      (∃ i, (InternStrings extS src dest s).1.SubobjectToExportsAssociation_Subobject =
        StrPtr.interned dest.id i) ∧
      ∀ r ∈ (InternStrings extS src dest s).1.m_Exports,
        ∃ i, r = StrPtr.interned dest.id i) := by
  cases hk : s.m_Kind with
  | SubobjectToExportsAssociation =>
      obtain ⟨e1, e2, e3, e4⟩ := internExports_spec extS src s.m_Exports
        (GetSubobjectString
          ((GetSubobjectString dest (readStrPtr extS src dest s.m_Name)).2) _).2
      simp only [InternStrings, hk]
      refine ⟨?_, ?_, ?_, ?_, ?_, ?_, ?_, ?_, ?_⟩
      · rw [e1, gss_id, gss_id]
      · rw [e2, gss_rawBytes, gss_rawBytes]
      · rw [e3, gss_subobjects, gss_subobjects]
      · trivial
      · exact gss_fst dest _
      · trivial
      · trivial
      · intro hcontra; simp at hcontra
      · intro _
        constructor
        · obtain ⟨i, hi⟩ := gss_fst
            ((GetSubobjectString dest (readStrPtr extS src dest s.m_Name)).2) _
          exact ⟨i, by rw [hi, gss_id]⟩
        · intro r hr
          obtain ⟨i, hi⟩ := e4 r hr
          exact ⟨i, by rw [hi, gss_id, gss_id]⟩
  | HitGroup =>
      simp only [InternStrings, hk]
      refine ⟨?_, ?_, ?_, ?_, ?_, ?_, ?_, ?_, ?_⟩
      · rw [gss_id, gss_id, gss_id, gss_id]
      · rw [gss_rawBytes, gss_rawBytes, gss_rawBytes, gss_rawBytes]
      · rw [gss_subobjects, gss_subobjects, gss_subobjects, gss_subobjects]
      · trivial
      · exact gss_fst dest _
      · trivial
      · trivial
      · intro _
        refine ⟨?_, ?_, ?_⟩
        · obtain ⟨i, hi⟩ := gss_fst _ _
          exact ⟨i, by rw [hi, gss_id]⟩
        · obtain ⟨i, hi⟩ := gss_fst _ _
          exact ⟨i, by rw [hi, gss_id, gss_id]⟩
        · obtain ⟨i, hi⟩ := gss_fst _ _
          exact ⟨i, by rw [hi, gss_id, gss_id, gss_id]⟩
      · intro hcontra; simp at hcontra
  | StateObjectConfig =>
      simp only [InternStrings, hk]
      refine ⟨gss_id _ _, gss_rawBytes _ _, gss_subobjects _ _, trivial,
        gss_fst dest _, trivial, trivial, ?_, ?_⟩
      · intro hcontra; simp at hcontra
      · intro hcontra; simp at hcontra
  | GlobalRootSignature =>
      simp only [InternStrings, hk]
      refine ⟨gss_id _ _, gss_rawBytes _ _, gss_subobjects _ _, trivial,
        gss_fst dest _, trivial, trivial, ?_, ?_⟩
      · intro hcontra; simp at hcontra
      · intro hcontra; simp at hcontra
  | LocalRootSignature =>
      simp only [InternStrings, hk]
      refine ⟨gss_id _ _, gss_rawBytes _ _, gss_subobjects _ _, trivial,
        gss_fst dest _, trivial, trivial, ?_, ?_⟩
      · intro hcontra; simp at hcontra
      · intro hcontra; simp at hcontra
  | RaytracingShaderConfig =>
      simp only [InternStrings, hk]
      refine ⟨gss_id _ _, gss_rawBytes _ _, gss_subobjects _ _, trivial,
        gss_fst dest _, trivial, trivial, ?_, ?_⟩
      · intro hcontra; simp at hcontra
      · intro hcontra; simp at hcontra
  | RaytracingPipelineConfig =>
      simp only [InternStrings, hk]
      refine ⟨gss_id _ _, gss_rawBytes _ _, gss_subobjects _ _, trivial,
        gss_fst dest _, trivial, trivial, ?_, ?_⟩
      · intro hcontra; simp at hcontra
      · intro hcontra; simp at hcontra

/-- A source registry (id 0) after interning a two-byte blob. -/
def c3srcPair : Option BytePtr × Registry :=
  GetRawBytes extBytes (Registry.fresh 0) (BytePtr.ext 9) 2

/-- A GlobalRootSignature subobject in registry 0 whose blob pointer is
the interned copy owned by registry 0. -/
def c3rs : Subobject × Registry × Bool :=
  CreateRootSignature c3srcPair.2 "RS" false
    (c3srcPair.1.getD (BytePtr.ext 99)) 2

/-- The clone of that subobject into the distinct registry 1. -/
def c3clone : Subobject × Registry × Bool :=
  CloneSubobject extStr (Registry.fresh 1) c3rs.2.1 c3rs.1 "RS2"

/-- Claim C3 counterexample: cloning a GlobalRootSignature from registry 0
into registry 1 copies the blob pointer verbatim — the clone's
root-signature reference still points into registry 0's byte store, is not
a key of the destination's byte store, and the destination's byte store
stays empty; the clone aliases source-registry storage. -/
theorem C3_counterexample :
    c3clone.1.m_Kind = SubobjectKind.GlobalRootSignature ∧
    c3clone.1.RootSignature_Data = BytePtr.stored 0 0 ∧
    (Registry.fresh 1).id = 1 ∧
    (c3rs.2.1).id = 0 ∧
    isRawKey (c3clone.2.1) (BytePtr.stored 0 0) = false ∧
    (c3clone.2.1).rawBytes = [] := by
  refine ⟨by decide, by decide, by decide, by decide, by decide, by decide⟩

/-- Claim C3 (amended): for a cross-registry clone every string reference
— the clone's name, the association target and export names, the
hit-group shader names — is re-resolved through the destination's string
store, but the root-signature blob reference is copied verbatim (it is
never re-resolved, and the destination's byte store is left untouched), so
a root-signature clone keeps aliasing the storage behind the source's
pointer. -/
theorem C3_clone_interns_strings_but_not_blobs :
    ∀ (extS : Nat → String) (dest src : Registry) (other : Subobject)
      (nm : String),
      dest.id ≠ src.id →
      (∃ i, (CloneSubobject extS dest src other nm).1.m_Name =
        StrPtr.interned dest.id i) ∧
      (other.m_Kind = SubobjectKind.HitGroup →
        (∃ i, (CloneSubobject extS dest src other nm).1.HitGroup_Intersection =
          StrPtr.interned dest.id i) ∧
        (∃ i, (CloneSubobject extS dest src other nm).1.HitGroup_AnyHit =
          StrPtr.interned dest.id i) ∧
        (∃ i, (CloneSubobject extS dest src other nm).1.HitGroup_ClosestHit =
          StrPtr.interned dest.id i)) ∧
      (other.m_Kind = SubobjectKind.SubobjectToExportsAssociation →
        (∃ i, (CloneSubobject extS dest src other
            nm).1.SubobjectToExportsAssociation_Subobject =
          StrPtr.interned dest.id i) ∧
        ∀ r ∈ (CloneSubobject extS dest src other nm).1.m_Exports,
          ∃ i, r = StrPtr.interned dest.id i) ∧
      ((other.m_Kind = SubobjectKind.GlobalRootSignature ∨
        other.m_Kind = SubobjectKind.LocalRootSignature) →
        (CloneSubobject extS dest src other nm).1.RootSignature_Data =
          other.RootSignature_Data ∧
        (CloneSubobject extS dest src other nm).1.RootSignature_Size =
          other.RootSignature_Size) ∧
      ((CloneSubobject extS dest src other nm).2.1).rawBytes = dest.rawBytes ∧
      (CloneSubobject extS dest src other nm).1.m_Kind = other.m_Kind := by
  intro extS dest src other nm hid
  have hcond : ¬(((GetSubobjectString dest nm).2).id = src.id) := by
    rw [gss_id]; exact hid
  have hblank : ({ blankSubobject other.m_Kind (GetSubobjectString dest nm).1
      with m_Exports := other.m_Exports }).m_Kind = other.m_Kind := by
    simp [blankSubobject]
  have hks1 : (CopyUnionedContents
      { blankSubobject other.m_Kind (GetSubobjectString dest nm).1
        with m_Exports := other.m_Exports } other).m_Kind = other.m_Kind := by
    rw [copyUnioned_kind]; exact hblank
  obtain ⟨i1, i2, i3, i4, i5, i6, i7, i8, i9⟩ :=
    internStrings_spec extS src ((GetSubobjectString dest nm).2)
      (CopyUnionedContents
        { blankSubobject other.m_Kind (GetSubobjectString dest nm).1
          with m_Exports := other.m_Exports } other)
  simp only [CloneSubobject, if_neg hcond]
  refine ⟨?_, ?_, ?_, ?_, ?_, ?_⟩
  · obtain ⟨i, hi⟩ := i5
    exact ⟨i, by rw [hi, gss_id]⟩
  · intro hHG
    obtain ⟨⟨ia, ha⟩, ⟨ib, hb⟩, ⟨ic, hc⟩⟩ := i8 (by rw [hks1]; exact hHG)
    exact ⟨⟨ia, by rw [ha, gss_id]⟩, ⟨ib, by rw [hb, gss_id]⟩,
      ⟨ic, by rw [hc, gss_id]⟩⟩
  · intro hEA
    obtain ⟨⟨ia, ha⟩, hall⟩ := i9 (by rw [hks1]; exact hEA)
    refine ⟨⟨ia, by rw [ha, gss_id]⟩, ?_⟩
    intro r hr
    obtain ⟨i, hi⟩ := hall r hr
    exact ⟨i, by rw [hi, gss_id]⟩
  · intro hRS
    obtain ⟨hd, hsz⟩ := copyUnioned_rootsig
      { blankSubobject other.m_Kind (GetSubobjectString dest nm).1
        with m_Exports := other.m_Exports } other
      (by rw [hblank]; exact hRS)
    exact ⟨i6.trans hd, i7.trans hsz⟩
  · rw [i2, gss_rawBytes]
  · rw [i4, hks1]

/-- Witness for the amended C3 at the concrete clone of the counterexample
registries: the clone's name is interned in the destination, the blob
pointer and size are other's own, the destination byte store unchanged. -/
theorem C3_clone_interns_strings_but_not_blobs_witness :
    (∃ i, c3clone.1.m_Name = StrPtr.interned (Registry.fresh 1).id i) ∧
    (c3clone.1.RootSignature_Data = c3rs.1.RootSignature_Data ∧
     c3clone.1.RootSignature_Size = c3rs.1.RootSignature_Size) ∧
    (c3clone.2.1).rawBytes = (Registry.fresh 1).rawBytes := by
  obtain ⟨h1, h2, h3, h4, h5, h6⟩ :=
    C3_clone_interns_strings_but_not_blobs extStr (Registry.fresh 1) c3rs.2.1
      c3rs.1 "RS2" (by decide)
  exact ⟨h1, h4 (Or.inl (by decide)), h5⟩

/-- Number of true entries among a list of classifier results. -/
def trueCount (bs : List Bool) : Nat := (bs.filter (fun b => b)).length

/-- Disjunction of the base shape classifiers. -/
def anyShapeClassifier (t : SourceType) : Bool :=
  isVectorType t || is1x1Matrix t || is1xNMatrix t || isMx1Matrix t ||
    isMxNMatrix t

/-- Claim C8 counterexample: on a length-1 vector two classifier
predicates hold at once (isVectorType and isVec1Type), and on a scalar
none of them holds — the predicates are neither mutually exclusive nor
jointly exhaustive as stated. -/
theorem C8_counterexample :
    (isVectorType (SourceType.vector ScalarKind.float 1) = true ∧
     isVec1Type (SourceType.vector ScalarKind.float 1) = true) ∧
    (isVectorType (SourceType.scalar ScalarKind.float) = false ∧
     isVec1Type (SourceType.scalar ScalarKind.float) = false ∧
     is1x1Matrix (SourceType.scalar ScalarKind.float) = false ∧
     is1xNMatrix (SourceType.scalar ScalarKind.float) = false ∧
     isMx1Matrix (SourceType.scalar ScalarKind.float) = false ∧
     isMxNMatrix (SourceType.scalar ScalarKind.float) = false ∧
     isMx1Or1xNMatrix (SourceType.scalar ScalarKind.float) = false ∧
     is1x1OrMx1Or1xNMatrix (SourceType.scalar ScalarKind.float) = false ∧
     isSpirvAcceptableMatrixType (SourceType.scalar ScalarKind.float) = false ∧
     (isSpirvAcceptableMatrixType (SourceType.matrix ScalarKind.float 3 3)
        = true ∧
      isMxNMatrix (SourceType.matrix ScalarKind.float 3 3) = true)) := by
  refine ⟨⟨rfl, rfl⟩, rfl, rfl, rfl, rfl, rfl, rfl, rfl, rfl, rfl, rfl, rfl⟩

/-- Claim C8 (amended): the four matrix-shape predicates are pairwise
exclusive and classify every matrix with at least one row and column into
exactly one shape; isVec1Type is a sub-case of isVectorType (a length-1
vector satisfies both); isSpirvAcceptableMatrixType is a sub-case of
isMxNMatrix holding exactly for floating-point matrices with more than one
row and more than one column; the two Or-predicates are the unions of
their named cases; and scalars, aggregates and unsupported types satisfy
no shape classifier. -/
theorem C8_shape_classifier_structure :
    ∀ (t : SourceType),
      (isVec1Type t = true → isVectorType t = true) ∧
      (isSpirvAcceptableMatrixType t = true → isMxNMatrix t = true) ∧
      isMx1Or1xNMatrix t = (isMx1Matrix t || is1xNMatrix t) ∧
      is1x1OrMx1Or1xNMatrix t =
        (is1x1Matrix t || isMx1Matrix t || is1xNMatrix t) ∧
      trueCount [is1x1Matrix t, is1xNMatrix t, isMx1Matrix t, isMxNMatrix t]
        ≤ 1 ∧
      (isVectorType t = true →
        is1x1Matrix t = false ∧ is1xNMatrix t = false ∧
        isMx1Matrix t = false ∧ isMxNMatrix t = false) ∧
      (∀ (k : ScalarKind) (m n : Nat), 1 ≤ m → 1 ≤ n →
        trueCount [is1x1Matrix (SourceType.matrix k m n),
          is1xNMatrix (SourceType.matrix k m n),
          isMx1Matrix (SourceType.matrix k m n),
          isMxNMatrix (SourceType.matrix k m n)] = 1) ∧
      (∀ (k : ScalarKind) (n : Nat),
        isVectorType (SourceType.vector k n) = true) ∧
      (∀ (k : ScalarKind), anyShapeClassifier (SourceType.scalar k) = false) ∧
      (∀ (fs : List SourceType),
        anyShapeClassifier (SourceType.aggregate fs) = false) ∧
      anyShapeClassifier SourceType.unsupported = false ∧
      (∀ (k : ScalarKind) (m n : Nat),
        isSpirvAcceptableMatrixType (SourceType.matrix k m n) = true ↔
          (1 < m ∧ 1 < n ∧ k = ScalarKind.float)) := by
  intro t
  refine ⟨?_, ?_, rfl, rfl, ?_, ?_, ?_, fun k n => rfl, fun k => rfl,
    fun fs => rfl, rfl, ?_⟩
  · intro h
    cases t with
    | vector k n => rfl
    | scalar k => exact Bool.noConfusion h
    | matrix k m n => exact Bool.noConfusion h
    | aggregate fs => exact Bool.noConfusion h
    | unsupported => exact Bool.noConfusion h
  · intro h
    cases t with
    | matrix k m n =>
        cases k with
        | float =>
            rcases m with _ | _ | m <;> rcases n with _ | _ | n <;>
              first
                | rfl
                | exact Bool.noConfusion h
        | int => exact Bool.noConfusion h
        | boolean => exact Bool.noConfusion h
    | vector k n => exact Bool.noConfusion h
    | scalar k => exact Bool.noConfusion h
    | aggregate fs => exact Bool.noConfusion h
    | unsupported => exact Bool.noConfusion h
  · cases t with
    | vector k n => exact Nat.zero_le 1
    | scalar k => exact Nat.zero_le 1
    | aggregate fs => exact Nat.zero_le 1
    | unsupported => exact Nat.zero_le 1
    | matrix k m n =>
        rcases m with _ | _ | m <;> rcases n with _ | _ | n <;>
          first
            | exact Nat.zero_le 1
            | exact Nat.le_refl 1
  · intro h
    cases t with
    | vector k n => exact ⟨rfl, rfl, rfl, rfl⟩
    | scalar k => exact Bool.noConfusion h
    | matrix k m n => exact Bool.noConfusion h
    | aggregate fs => exact Bool.noConfusion h
    | unsupported => exact Bool.noConfusion h
  · intro k m n hm hn
    rcases m with _ | _ | m <;> rcases n with _ | _ | n <;>
      first
        | omega
        | rfl
  · intro k m n
    cases k <;> rcases m with _ | _ | m <;> rcases n with _ | _ | n <;>
      simp [isSpirvAcceptableMatrixType]

/-- Witness for the amended C8 at a concrete 2x2 floating matrix. -/
theorem C8_shape_classifier_structure_witness :
    isMxNMatrix (SourceType.matrix ScalarKind.float 2 2) = true ∧
    trueCount [is1x1Matrix (SourceType.matrix ScalarKind.float 2 2),
      is1xNMatrix (SourceType.matrix ScalarKind.float 2 2),
      isMx1Matrix (SourceType.matrix ScalarKind.float 2 2),
      isMxNMatrix (SourceType.matrix ScalarKind.float 2 2)] = 1 := by
  obtain ⟨h1, h2, h3, h4, h5, h6, h7, h8, h9, h10, h11, h12⟩ :=
    C8_shape_classifier_structure (SourceType.matrix ScalarKind.float 2 2)
  exact ⟨h2 rfl, h7 ScalarKind.float 2 2 (by omega) (by omega)⟩

/-- The builder collaborator hands out positive ids; 0 stays the sentinel. -/
theorem emit_pos (b : ModuleBuilder) (desc : IRTypeDesc) :
    0 < (emitOrReuseType b desc).1 := by
  unfold emitOrReuseType
  split <;> simp

/-- Joint soundness of the modelled translator, by strong induction on
size: a good type lowers to a non-sentinel id leaving the diagnostics
untouched; an unrepresentable type lowers to the sentinel id 0 after
reporting at least one new diagnostic. -/
theorem translate_sound :
    ∀ (N : Nat),
      (∀ (t : SourceType) (b : ModuleBuilder) (d : List String),
        sizeOf t ≤ N →
        (goodType t = true →
          ∃ i b2, translateType b d t = some (i, b2, d) ∧ i ≠ 0) ∧
        (Unrepresentable t = true →
          ∃ b2 d2, translateType b d t = some (0, b2, d2) ∧
            d.length < d2.length)) ∧
      (∀ (fs : List SourceType) (b : ModuleBuilder) (d : List String)
         (acc : List Nat),
        sizeOf fs ≤ N →
        (goodFields fs = true →
          ∃ i b2, translateFields b d fs acc = some (i, b2, d) ∧ i ≠ 0) ∧
        (UnrepFields fs = true →
          ∃ b2 d2, translateFields b d fs acc = some (0, b2, d2) ∧
            d.length < d2.length)) := by
  intro N
  induction N with
  | zero =>
      constructor
      · intro t b d ht
        exfalso
        cases t <;> simp at ht
      · intro fs b d acc hf
        exfalso
        cases fs <;> simp at hf
  | succ n ih =>
      obtain ⟨ihT, ihF⟩ := ih
      constructor
      · intro t b d ht
        cases t with
        | scalar k =>
            constructor
            · intro _
              simp only [translateType]
              exact ⟨_, _, rfl, Nat.pos_iff_ne_zero.mp (emit_pos _ _)⟩
            · intro h; exact Bool.noConfusion h
        | vector k nn =>
            constructor
            · intro _
              simp only [translateType]
              exact ⟨_, _, rfl, Nat.pos_iff_ne_zero.mp (emit_pos _ _)⟩
            · intro h; exact Bool.noConfusion h
        | matrix k m nn =>
            constructor
            · intro hg
              simp [goodType] at hg
              obtain ⟨⟨hm, hn⟩, hk⟩ := hg
              subst hk
              simp only [translateType, if_pos (And.intro hm hn)]
              exact ⟨_, _, rfl, Nat.pos_iff_ne_zero.mp (emit_pos _ _)⟩
            · intro hu
              simp [Unrepresentable] at hu
              obtain ⟨⟨hm, hn⟩, hk⟩ := hu
              simp only [translateType, if_pos (And.intro hm hn), if_neg hk]
              exact ⟨_, _, rfl, by simp⟩
        | aggregate fs =>
            have hsz : sizeOf fs ≤ n := by simp at ht; omega
            constructor
            · intro hg
              simp [goodType] at hg
              obtain ⟨i, b2, heq, hne⟩ := (ihF fs b d [] hsz).1 hg
              simp only [translateType]
              exact ⟨i, b2, heq, hne⟩
            · intro hu
              simp [Unrepresentable] at hu
              obtain ⟨b2, d2, heq, hlen⟩ := (ihF fs b d [] hsz).2 hu
              simp only [translateType]
              exact ⟨b2, d2, heq, hlen⟩
        | unsupported =>
            constructor
            · intro h; exact Bool.noConfusion h
            · intro _
              simp only [translateType]
              exact ⟨_, _, rfl, by simp⟩
      · intro fs b d acc hsz
        cases fs with
        | nil =>
            constructor
            · intro _
              simp only [translateFields]
              exact ⟨_, _, rfl, Nat.pos_iff_ne_zero.mp (emit_pos _ _)⟩
            · intro h; exact Bool.noConfusion h
        | cons f rest =>
            have hf : sizeOf f ≤ n := by simp at hsz; omega
            have hrest : sizeOf rest ≤ n := by simp at hsz; omega
            constructor
            · intro hg
              simp [goodFields] at hg
              obtain ⟨i, b2, heq, hne⟩ := (ihT f b d hf).1 hg.1
              obtain ⟨i2, b3, heq2, hne2⟩ :=
                (ihF rest b2 d (i :: acc) hrest).1 hg.2
              simp only [translateFields, heq, if_neg hne]
              exact ⟨i2, b3, heq2, hne2⟩
            · intro hu
              simp [UnrepFields] at hu
              cases hu with
              | inl hl =>
                  obtain ⟨b2, d2, heq, hlen⟩ := (ihT f b d hf).2 hl
                  simp only [translateFields, heq]
                  exact ⟨b2, d2, by simp, hlen⟩
              | inr hr =>
                  obtain ⟨i, b2, heq, hne⟩ := (ihT f b d hf).1 hr.1
                  obtain ⟨b3, d3, heq2, hlen⟩ :=
                    (ihF rest b2 d (i :: acc) hrest).2 hr.2
                  simp only [translateFields, heq, if_neg hne]
                  exact ⟨b3, d3, heq2, hlen⟩

/-- Claim C7: every source type with no legal target representation (the
unsupported type, a non-floating general matrix, or an aggregate whose
translation reaches such a component) makes translateType report an error
through the diagnostic collaborator and return the sentinel invalid id 0 —
never a valid id. -/
theorem C7_unsupported_type_reports_error_and_sentinel :
    ∀ (t : SourceType) (b : ModuleBuilder) (d : List String),
      Unrepresentable t = true →
      ∃ b2 d2, translateType b d t = some (0, b2, d2) ∧
        d.length < d2.length := by
  intro t b d h
  exact ((translate_sound (sizeOf t)).1 t b d (Nat.le_refl _)).2 h

/-- Witness for C7 at the unsupported type against an empty builder and an
empty diagnostic list. -/
theorem C7_unsupported_type_reports_error_and_sentinel_witness :
    Unrepresentable SourceType.unsupported = true ∧
    ∃ b2 d2,
      translateType { emitted := [] } [] SourceType.unsupported =
        some (0, b2, d2) ∧
      ([] : List String).length < d2.length := by
  refine ⟨rfl, ?_⟩
  exact C7_unsupported_type_reports_error_and_sentinel SourceType.unsupported
    { emitted := [] } [] rfl
